import Mathlib

/-!
Shallow embedding of `src/main.py` (LiveWallpaper).

The program drives an external media engine (VLC) and a filesystem.  Both are
modelled by oracles: `fs : String → Bool` says which paths exist, and
`ok : ECall → Bool` says which engine calls succeed.  Every engine call the
Python code makes is reified as an `ECall`; a successful call mutates the
modelled engine state (`PlayerState`) and is appended to a ghost `trace`,
a failing call raises — which the embedding propagates or swallows exactly
where the Python code's `try`/`except` blocks do.
-/

set_option autoImplicit false

/-- One call into the media engine (python-vlc), as issued by `main.py`. -/
inductive ECall where
  | mediaNew (path : String)
  | addOption (opt : String)
  | setMedia (path : String)
  | setRate (r : ℚ)
  | playCall
  | pauseCall
  | stopCall
  | setScale (s : ℚ)
  | setAspect (a : Option String)
  | isPlayingCall
deriving DecidableEq

/-- Observable state of the media engine (the VLC player instance). -/
structure PlayerState where
  media : Option String
  rate : ℚ
  scale : ℚ
  aspect : Option String
  playing : Bool
deriving DecidableEq

/-- Effect of a successful engine call on the engine state. -/
def PlayerState.applyCall (p : PlayerState) : ECall → PlayerState
  | .setMedia path => { p with media := some path }
  | .setRate r => { p with rate := r }
  | .playCall => { p with playing := true }
  | .pauseCall => { p with playing := false }
  | .stopCall => { p with playing := false }
  | .setScale s => { p with scale := s }
  | .setAspect a => { p with aspect := a }
  | _ => p

/-- Engine state of a freshly constructed player. -/
def initPlayer : PlayerState :=
  { media := none, rate := 1, scale := 0, aspect := none, playing := false }

/-- Errors raised by the embedded operations: `FileNotFoundError` from
`WallpaperWindow.load`, and any failing engine call (`EngineError`). -/
inductive PyError where
  | fileNotFound (path : String)
  | engineError
deriving DecidableEq

/-- The persisted configuration record, `DEFAULT_CONFIG`'s four keys. -/
structure Config where
  last_video : String
  default_video : String
  speed : ℚ
  aspect_mode : String
deriving DecidableEq

/-- `DEFAULT_CONFIG` from `main.py`. -/
def DEFAULT_CONFIG : Config :=
  { last_video := "", default_video := "", speed := 1, aspect_mode := "fit" }

/-- A parsed settings file: each key independently present or missing
(a JSON object may lack any subset of the keys). -/
structure PartialConfig where
  last_video : Option String
  default_video : Option String
  speed : Option ℚ
  aspect_mode : Option String
deriving DecidableEq

/-- What reading `CONFIG_PATH` can yield: no file, an unreadable or
unparsable file, or a parsed JSON object. -/
inductive FileRead where
  | missing
  | unreadable
  | parsed (c : PartialConfig)
deriving DecidableEq

/-- `load_config` from `main.py`: missing file or read/parse failure gives
`DEFAULT_CONFIG`; a parsed file is merged over the defaults
(`{**DEFAULT_CONFIG, **cfg}`): every key present in the file wins, every
missing key comes from `DEFAULT_CONFIG`. -/
def load_config : FileRead → Config
  | .missing => DEFAULT_CONFIG
  | .unreadable => DEFAULT_CONFIG
  | .parsed c =>
    { last_video := c.last_video.getD DEFAULT_CONFIG.last_video
      default_video := c.default_video.getD DEFAULT_CONFIG.default_video
      speed := c.speed.getD DEFAULT_CONFIG.speed
      aspect_mode := c.aspect_mode.getD DEFAULT_CONFIG.aspect_mode }

/-- `save_config` from `main.py`: best-effort write of the full record;
`saveOk` models whether the write succeeds (failure is swallowed). -/
def save_config (saveOk : Bool) (cfg : Config) (disk : Option Config) : Option Config :=
  if saveOk then some cfg else disk

/-- In-memory state of `WallpaperWindow`: the bound player, `self.media`,
and the `aspect_mode` / `speed` / `current_video_path` / flag fields set in
`__init__`, plus a ghost trace of the successful engine calls. -/
structure WallpaperWindow where
  player : PlayerState
  media : Option String
  aspect_mode : String
  speed : ℚ
  current_video_path : String
  was_playing : Bool
  manually_paused : Bool
  trace : List ECall
deriving DecidableEq

/-- `WallpaperWindow.__init__(config)`: fields initialised from the config. -/
def WallpaperWindow.init (config : Config) : WallpaperWindow :=
  { player := initPlayer
    media := none
    aspect_mode := config.aspect_mode
    speed := config.speed
    current_video_path := ""
    was_playing := false
    manually_paused := false
    trace := [] }

/-- Issue one engine call: if the oracle lets it succeed, the engine state
is updated and the call recorded; otherwise the call raises (`false`). -/
def engCall (ok : ECall → Bool) (c : ECall) (w : WallpaperWindow) :
    WallpaperWindow × Bool :=
  if ok c then
    ({ w with player := w.player.applyCall c, trace := w.trace ++ [c] }, true)
  else
    (w, false)

/-- Issue a sequence of unguarded engine calls, stopping at the first
failure (`false` = an exception escaped the sequence). -/
def guardCalls (ok : ECall → Bool) (cs : List ECall) (w : WallpaperWindow) :
    WallpaperWindow × Bool :=
  match cs with
  | [] => (w, true)
  | c :: rest =>
    match engCall ok c w with
    | (w2, true) => guardCalls ok rest w2
    | (w2, false) => (w2, false)

/-- `WallpaperWindow._apply_aspect_mode`: `"fit"` means scale-to-window and
no forced aspect ratio; anything else means default scaling with a forced
16:9 ratio.  Each branch's two calls share one `try`, so a failing first
call skips the second, and the failure is swallowed. -/
def WallpaperWindow.applyAspectMode (ok : ECall → Bool) (w : WallpaperWindow) :
    WallpaperWindow :=
  if w.aspect_mode = "fit" then
    match engCall ok (.setScale 1) w with
    | (w2, true) => (engCall ok (.setAspect none) w2).1
    | (w2, false) => w2
  else
    match engCall ok (.setScale 0) w with
    | (w2, true) => (engCall ok (.setAspect (some "16:9")) w2).1
    | (w2, false) => w2

/-- The unguarded engine calls `load` makes to construct and configure the
media object: `media_new` followed by the five `add_option` calls, in
source order. -/
def loadMediaCalls (path : String) : List ECall :=
  [.mediaNew path,
   .addOption "input-repeat=999999",
   .addOption "--loop",
   .addOption ":network-caching=300",
   .addOption ":file-caching=300",
   .addOption ":live-caching=300"]

/-- `WallpaperWindow.load(path)`: raise `FileNotFoundError` if the path does
not exist; otherwise set `current_video_path`, build the media with its
looping and caching options, bind it to the player (all unguarded calls),
then — under a swallowing `try` — set the rate when it differs from `1.0`,
and finally apply the current aspect mode.  Never calls `play`. -/
def WallpaperWindow.load (fs : String → Bool) (ok : ECall → Bool)
    (w : WallpaperWindow) (path : String) : WallpaperWindow × Option PyError :=
  if fs path = false then
    (w, some (.fileNotFound path))
  else
    let w := { w with current_video_path := path }
    match guardCalls ok (loadMediaCalls path) w with
    | (w2, false) => (w2, some .engineError)
    | (w2, true) =>
      let w3 := { w2 with media := some path }
      match engCall ok (.setMedia path) w3 with
      | (w4, false) => (w4, some .engineError)
      | (w4, true) =>
        let w5 := if w4.speed ≠ 1 then (engCall ok (.setRate w4.speed) w4).1 else w4
        (WallpaperWindow.applyAspectMode ok w5, none)

/-- `WallpaperWindow.play`: no-op when `self.media is None`; otherwise play,
set the flags, and re-assert the rate when it differs from `1.0`.  All
failures are caught inside the method. -/
def WallpaperWindow.play (ok : ECall → Bool) (w : WallpaperWindow) :
    WallpaperWindow :=
  if w.media = none then w
  else
    match engCall ok .playCall w with
    | (w2, false) => w2
    | (w2, true) =>
      let w3 := { w2 with was_playing := true, manually_paused := false }
      if w3.speed ≠ 1 then (engCall ok (.setRate w3.speed) w3).1 else w3

/-- `WallpaperWindow.pause`: pause the engine then set the flags; a failing
engine call is caught and leaves everything unchanged. -/
def WallpaperWindow.pause (ok : ECall → Bool) (w : WallpaperWindow) :
    WallpaperWindow :=
  match engCall ok .pauseCall w with
  | (w2, false) => w2
  | (w2, true) => { w2 with was_playing := false, manually_paused := true }

/-- `WallpaperWindow.stop`: stop the engine then clear `current_video_path`
and the flags, all inside one `try`; `self.media` is never cleared. -/
def WallpaperWindow.stop (ok : ECall → Bool) (w : WallpaperWindow) :
    WallpaperWindow :=
  match engCall ok .stopCall w with
  | (w2, false) => w2
  | (w2, true) =>
    { w2 with current_video_path := "", was_playing := false, manually_paused := false }

/-- `WallpaperWindow.set_speed(speed)`: store the speed first, then — inside
a `try` — push it to the engine. -/
def WallpaperWindow.set_speed (ok : ECall → Bool) (w : WallpaperWindow)
    (speed : ℚ) : WallpaperWindow :=
  let w2 := { w with speed := speed }
  (engCall ok (.setRate w2.speed) w2).1

/-- `WallpaperWindow.toggle_aspect`: flip `aspect_mode`, apply it, and
return the new mode string. -/
def WallpaperWindow.toggle_aspect (ok : ECall → Bool) (w : WallpaperWindow) :
    WallpaperWindow × String :=
  let w2 :=
    if w.aspect_mode = "fit" then { w with aspect_mode := "keep_aspect" }
    else { w with aspect_mode := "fit" }
  let w3 := WallpaperWindow.applyAspectMode ok w2
  (w3, w3.aspect_mode)

/-- `WallpaperWindow.is_playing`: query the engine; a failing query reads
as not playing. -/
def WallpaperWindow.is_playing (ok : ECall → Bool) (w : WallpaperWindow) : Bool :=
  if ok .isPlayingCall then w.player.playing else false

/-- `Path(s).name`: the final path component. -/
def baseName (s : String) : String :=
  (s.split fun c => c == '/' || c == '\\').getLastD ""

/-- The `ControlPanel` widgets the embedded actions touch. -/
structure ControlPanel where
  btn_playpause_enabled : Bool
  btn_playpause_text : String
  btn_setdefault_enabled : Bool
  status : String
deriving DecidableEq

/-- Panel widget state as built in `ControlPanel.__init__` before the
startup auto-load runs. -/
def initPanel : ControlPanel :=
  { btn_playpause_enabled := false
    btn_playpause_text := "Play"
    btn_setdefault_enabled := false
    status := "Idle" }

/-- The startup auto-load tail of `ControlPanel.__init__`: prefer
`default_video` when set and existing, else fall back to `last_video`, else
do nothing.  On success the buttons and status are updated and `play` is
called; a failing `load` is caught and only printed — the panel is left
untouched. -/
def startupAutoLoad (fs : String → Bool) (ok : ECall → Bool) (cfg : Config)
    (w : WallpaperWindow) (p : ControlPanel) : WallpaperWindow × ControlPanel :=
  if cfg.default_video ≠ "" ∧ fs cfg.default_video = true then
    match WallpaperWindow.load fs ok w cfg.default_video with
    | (w2, some _) => (w2, p)
    | (w2, none) =>
      let p2 := { p with
        btn_playpause_enabled := true
        btn_playpause_text := "Pause"
        btn_setdefault_enabled := true
        status := "Loaded default: " ++ baseName cfg.default_video }
      (WallpaperWindow.play ok w2, p2)
  else if cfg.last_video ≠ "" ∧ fs cfg.last_video = true then
    match WallpaperWindow.load fs ok w cfg.last_video with
    | (w2, some _) => (w2, p)
    | (w2, none) =>
      let p2 := { p with
        btn_playpause_enabled := true
        btn_playpause_text := "Pause"
        btn_setdefault_enabled := true
        status := "Loaded: " ++ baseName cfg.last_video }
      (WallpaperWindow.play ok w2, p2)
  else (w, p)

/-- `ControlPanel.on_load`: a cancelled dialog (empty path) does nothing;
otherwise `last_video` is stored and persisted BEFORE the load is
attempted; a failing load shows a message box and leaves the panel alone;
a successful load enables the buttons, plays, and sets the status. -/
def on_load (fs : String → Bool) (ok : ECall → Bool) (saveOk : Bool)
    (path : String) (cfg : Config) (disk : Option Config)
    (w : WallpaperWindow) (p : ControlPanel) :
    Config × Option Config × WallpaperWindow × ControlPanel :=
  if path = "" then (cfg, disk, w, p)
  else
    let cfg2 := { cfg with last_video := path }
    let disk2 := save_config saveOk cfg2 disk
    match WallpaperWindow.load fs ok w path with
    | (w2, some _) => (cfg2, disk2, w2, p)
    | (w2, none) =>
      let p2 := { p with btn_playpause_enabled := true, btn_setdefault_enabled := true }
      let w3 := WallpaperWindow.play ok w2
      let p3 := { p2 with btn_playpause_text := "Pause",
                          status := "Playing: " ++ baseName path }
      (cfg2, disk2, w3, p3)

/-- The index-to-rate mapping of `ControlPanel.on_speed_change`:
`{0: 0.5, 1: 1.0, 2: 1.5, 3: 2.0}.get(index, 1.0)`. -/
def speedOfIndex (index : ℤ) : ℚ :=
  if index = 0 then 0.5
  else if index = 1 then 1
  else if index = 2 then 1.5
  else if index = 3 then 2
  else 1

/-- `ControlPanel.on_speed_change(index)`: map the combo-box index to a
rate, push it to the wallpaper, persist it, update the status. -/
def on_speed_change (ok : ECall → Bool) (saveOk : Bool) (index : ℤ)
    (cfg : Config) (disk : Option Config)
    (w : WallpaperWindow) (p : ControlPanel) :
    Config × Option Config × WallpaperWindow × ControlPanel :=
  let speed := speedOfIndex index
  let w2 := WallpaperWindow.set_speed ok w speed
  let cfg2 := { cfg with speed := speed }
  let disk2 := save_config saveOk cfg2 disk
  let p2 := { p with status := "Speed: " ++ toString speed ++ "x" }
  (cfg2, disk2, w2, p2)

/-- Oracle under which every engine call succeeds. -/
def allOk : ECall → Bool := fun _ => true

/-- Oracle under which every engine call fails. -/
def noOk : ECall → Bool := fun _ => false

/-- Filesystem on which every path exists. -/
def allFiles : String → Bool := fun _ => true

/-- Filesystem on which no path exists. -/
def noFiles : String → Bool := fun _ => false

/-- Engine calls that do not touch the engine's playing flag (everything
except play/pause/stop).  Proof infrastructure, not part of the source. -/
def ECall.isBenign : ECall → Bool
  | .playCall => false
  | .pauseCall => false
  | .stopCall => false
  | _ => true

/-!  Helper lemmas about single engine calls and call sequences. -/

theorem engCall_fields (ok : ECall → Bool) (c : ECall) (w : WallpaperWindow) :
    (engCall ok c w).1.current_video_path = w.current_video_path ∧
    (engCall ok c w).1.media = w.media ∧
    (engCall ok c w).1.aspect_mode = w.aspect_mode ∧
    (engCall ok c w).1.speed = w.speed := by
  unfold engCall
  split <;> simp

theorem applyCall_playing (p : PlayerState) (c : ECall) (h : c.isBenign = true) :
    (p.applyCall c).playing = p.playing := by
  cases c <;> simp [ECall.isBenign] at h ⊢ <;> simp [PlayerState.applyCall]

theorem engCall_playing (ok : ECall → Bool) (c : ECall) (w : WallpaperWindow)
    (h : c.isBenign = true) :
    (engCall ok c w).1.player.playing = w.player.playing := by
  unfold engCall
  split <;> simp [applyCall_playing _ _ h]

theorem engCall_playCall_mem (ok : ECall → Bool) (c : ECall) (w : WallpaperWindow)
    (h : c ≠ ECall.playCall) :
    (ECall.playCall ∈ (engCall ok c w).1.trace ↔ ECall.playCall ∈ w.trace) := by
  unfold engCall
  split <;> simp [Ne.symm h]

theorem guardCalls_fields (ok : ECall → Bool) (cs : List ECall) :
    ∀ w : WallpaperWindow,
    (guardCalls ok cs w).1.current_video_path = w.current_video_path ∧
    (guardCalls ok cs w).1.media = w.media ∧
    (guardCalls ok cs w).1.aspect_mode = w.aspect_mode ∧
    (guardCalls ok cs w).1.speed = w.speed := by
  induction cs with
  | nil => intro w; simp [guardCalls]
  | cons c rest ih =>
    intro w
    by_cases hoc : ok c = true <;> simp [guardCalls, engCall, hoc]
    exact ih _

theorem guardCalls_playing (ok : ECall → Bool) (cs : List ECall)
    (hcs : ∀ c ∈ cs, c.isBenign = true) :
    ∀ w : WallpaperWindow,
    (guardCalls ok cs w).1.player.playing = w.player.playing := by
  induction cs with
  | nil => intro w; simp [guardCalls]
  | cons c rest ih =>
    intro w
    have hc : c.isBenign = true := hcs c (by simp)
    have hrest : ∀ c ∈ rest, ECall.isBenign c = true := by
      intro d hd; exact hcs d (by simp [hd])
    by_cases hoc : ok c = true <;>
      simp [guardCalls, engCall, hoc]
    · rw [ih hrest _]
      simp [applyCall_playing _ _ hc]

theorem guardCalls_playCall_mem (ok : ECall → Bool) (cs : List ECall)
    (hcs : ECall.playCall ∉ cs) :
    ∀ w : WallpaperWindow,
    (ECall.playCall ∈ (guardCalls ok cs w).1.trace ↔ ECall.playCall ∈ w.trace) := by
  induction cs with
  | nil => intro w; simp [guardCalls]
  | cons c rest ih =>
    intro w
    have hc : ECall.playCall ≠ c := by intro e; exact hcs (by simp [e])
    have hrest : ECall.playCall ∉ rest := by intro e; exact hcs (by simp [e])
    by_cases hoc : ok c = true <;>
      simp [guardCalls, engCall, hoc]
    rw [ih hrest _]
    simp [hc]

theorem applyAspectMode_fields (ok : ECall → Bool) (w : WallpaperWindow) :
    (WallpaperWindow.applyAspectMode ok w).current_video_path = w.current_video_path ∧
    (WallpaperWindow.applyAspectMode ok w).media = w.media ∧
    (WallpaperWindow.applyAspectMode ok w).aspect_mode = w.aspect_mode ∧
    (WallpaperWindow.applyAspectMode ok w).speed = w.speed ∧
    (WallpaperWindow.applyAspectMode ok w).player.playing = w.player.playing ∧
    (ECall.playCall ∈ (WallpaperWindow.applyAspectMode ok w).trace ↔
      ECall.playCall ∈ w.trace) := by
  unfold WallpaperWindow.applyAspectMode
  split <;> by_cases h1 : ok (.setScale 1) = true <;>
    by_cases h0 : ok (.setScale 0) = true <;>
    by_cases h2 : ok (.setAspect none) = true <;>
    by_cases h3 : ok (.setAspect (some "16:9")) = true <;>
    simp [engCall, h0, h1, h2, h3, PlayerState.applyCall]

/-- Claim C1: calling `load` with a path that does not reference an existing
file raises `FileNotFoundError` and leaves the whole window state (current
path, rate, aspect mode, bound media, engine state) exactly as it was. -/
theorem C1_load_nonexistent_unchanged (fs : String → Bool) (ok : ECall → Bool)
    (w : WallpaperWindow) (path : String) (h : fs path = false) :
    WallpaperWindow.load fs ok w path = (w, some (.fileNotFound path)) := by
  simp [WallpaperWindow.load, h]

theorem C1_witness :
    noFiles "missing.mp4" = false ∧
    WallpaperWindow.load noFiles allOk (WallpaperWindow.init DEFAULT_CONFIG)
        "missing.mp4"
      = (WallpaperWindow.init DEFAULT_CONFIG,
         some (PyError.fileNotFound "missing.mp4")) :=
  ⟨rfl, C1_load_nonexistent_unchanged noFiles allOk _ _ rfl⟩

/-- Claim C2: after `load path` succeeds, `current_video_path = path`, the
media is bound (`self.media = some path`), and `load` never auto-plays: it
issues no play call to the engine, so the engine's playing flag — and hence
`is_playing()` — is exactly what it was before the call. -/
theorem C2_load_success_no_autoplay (fs : String → Bool) (ok : ECall → Bool)
    (w : WallpaperWindow) (path : String)
    (h : (WallpaperWindow.load fs ok w path).2 = none) :
    (WallpaperWindow.load fs ok w path).1.current_video_path = path ∧
    (WallpaperWindow.load fs ok w path).1.media = some path ∧
    (WallpaperWindow.load fs ok w path).1.player.playing = w.player.playing ∧
    (ECall.playCall ∈ (WallpaperWindow.load fs ok w path).1.trace ↔
      ECall.playCall ∈ w.trace) ∧
    WallpaperWindow.is_playing ok (WallpaperWindow.load fs ok w path).1
      = WallpaperWindow.is_playing ok w := by
  rcases hr : WallpaperWindow.load fs ok w path with ⟨w', e⟩
  rw [hr] at h
  simp only at h
  subst h
  simp only
  unfold WallpaperWindow.load at hr
  by_cases hfs : fs path = false
  · simp [hfs] at hr
  · rw [if_neg hfs] at hr
    dsimp only at hr
    split at hr
    case _ w2 heq => simp at hr
    case _ w2 heq =>
      split at hr
      case _ w4 heq2 => simp at hr
      case _ w4 heq2 =>
        have hbenign : ∀ c ∈ loadMediaCalls path, c.isBenign = true := by
          intro c hc
          simp [loadMediaCalls] at hc
          rcases hc with rfl | rfl | rfl | rfl | rfl | rfl <;> rfl
        have hnoplay : ECall.playCall ∉ loadMediaCalls path := by
          simp [loadMediaCalls]
        have hw2 : (guardCalls ok (loadMediaCalls path)
            { w with current_video_path := path }).1 = w2 := by rw [heq]
        have hw2f := guardCalls_fields ok (loadMediaCalls path)
          { w with current_video_path := path }
        have hw2p := guardCalls_playing ok (loadMediaCalls path) hbenign
          { w with current_video_path := path }
        have hw2m := guardCalls_playCall_mem ok (loadMediaCalls path) hnoplay
          { w with current_video_path := path }
        rw [hw2] at hw2f hw2p hw2m
        have hw4 : (engCall ok (.setMedia path) { w2 with media := some path }).1
            = w4 := by rw [heq2]
        have hw4f := engCall_fields ok (.setMedia path) { w2 with media := some path }
        have hw4p := engCall_playing ok (.setMedia path)
          { w2 with media := some path } rfl
        have hw4m := engCall_playCall_mem ok (.setMedia path)
          { w2 with media := some path } (by simp)
        rw [hw4] at hw4f hw4p hw4m
        set w5 := if w4.speed ≠ 1 then (engCall ok (.setRate w4.speed) w4).1 else w4
          with hw5def
        have hw5f : w5.current_video_path = w4.current_video_path ∧
            w5.media = w4.media ∧ w5.player.playing = w4.player.playing ∧
            (ECall.playCall ∈ w5.trace ↔ ECall.playCall ∈ w4.trace) := by
          rw [hw5def]
          split
          · exact ⟨(engCall_fields ok _ w4).1, (engCall_fields ok _ w4).2.1,
              engCall_playing ok _ w4 rfl, engCall_playCall_mem ok _ w4 (by simp)⟩
          · exact ⟨rfl, rfl, rfl, Iff.rfl⟩
        have hw' : WallpaperWindow.applyAspectMode ok w5 = w' := by
          have := congrArg Prod.fst hr
          simpa using this
        have haam := applyAspectMode_fields ok w5
        rw [hw'] at haam
        have hpath : w'.current_video_path = path := by
          rw [haam.1, hw5f.1, hw4f.1]
          simp [hw2f.1]
        have hmedia : w'.media = some path := by
          rw [haam.2.1, hw5f.2.1, hw4f.2.1]
        have hplaying : w'.player.playing = w.player.playing := by
          rw [haam.2.2.2.2.1, hw5f.2.2.1, hw4p]
          simp [hw2p]
        have hmem : ECall.playCall ∈ w'.trace ↔ ECall.playCall ∈ w.trace := by
          rw [haam.2.2.2.2.2, hw5f.2.2.2, hw4m]
          simp [hw2m]
        refine ⟨hpath, hmedia, hplaying, hmem, ?_⟩
        unfold WallpaperWindow.is_playing
        split
        · exact hplaying
        · rfl

theorem C2_witness :
    (WallpaperWindow.load allFiles allOk (WallpaperWindow.init DEFAULT_CONFIG)
        "video.mp4").2 = none ∧
    ((WallpaperWindow.load allFiles allOk (WallpaperWindow.init DEFAULT_CONFIG)
        "video.mp4").1.current_video_path = "video.mp4" ∧
     (WallpaperWindow.load allFiles allOk (WallpaperWindow.init DEFAULT_CONFIG)
        "video.mp4").1.media = some "video.mp4" ∧
     (WallpaperWindow.load allFiles allOk (WallpaperWindow.init DEFAULT_CONFIG)
        "video.mp4").1.player.playing
        = (WallpaperWindow.init DEFAULT_CONFIG).player.playing ∧
     (ECall.playCall ∈ (WallpaperWindow.load allFiles allOk
        (WallpaperWindow.init DEFAULT_CONFIG) "video.mp4").1.trace ↔
       ECall.playCall ∈ (WallpaperWindow.init DEFAULT_CONFIG).trace) ∧
     WallpaperWindow.is_playing allOk (WallpaperWindow.load allFiles allOk
        (WallpaperWindow.init DEFAULT_CONFIG) "video.mp4").1
       = WallpaperWindow.is_playing allOk (WallpaperWindow.init DEFAULT_CONFIG)) :=
  ⟨by decide,
   C2_load_success_no_autoplay allFiles allOk (WallpaperWindow.init DEFAULT_CONFIG)
     "video.mp4" (by decide)⟩

/-- A window obtained by loading `"a.mp4"` into a freshly constructed
default window with a healthy engine; its stored rate is the default `1`. -/
def loadedDefault : WallpaperWindow :=
  (WallpaperWindow.load allFiles allOk (WallpaperWindow.init DEFAULT_CONFIG)
    "a.mp4").1

/-- Claim C3 is false as stated: with the current rate equal to `1.0`
(the default), neither `load` nor `play` sends any rate to the engine —
the code guards every `set_rate` behind `speed != 1.0`.  Here a full
healthy load left no `set_rate 1` in the engine trace, and `play` appends
only the play call. -/
theorem C3_counterexample :
    loadedDefault.speed = 1 ∧
    ECall.setRate 1 ∉ loadedDefault.trace ∧
    (WallpaperWindow.play allOk loadedDefault).trace
      = loadedDefault.trace ++ [ECall.playCall] ∧
    ECall.setRate 1 ∉ (WallpaperWindow.play allOk loadedDefault).trace := by
  decide

/-- Claim C3 amended: with a healthy engine, `load` issues the media
construction/bind calls, then the current rate — but only when it differs
from `1.0` — and then always the current aspect-mode calls; `play` issues
the play call and then re-asserts the rate, again only when it differs
from `1.0`. -/
theorem C3_amended_rate_aspect_application (w : WallpaperWindow) (path : String) :
    ((WallpaperWindow.load allFiles allOk w path).1.trace
      = w.trace ++ loadMediaCalls path ++ [ECall.setMedia path]
          ++ (if w.speed = 1 then [] else [ECall.setRate w.speed])
          ++ (if w.aspect_mode = "fit"
              then [ECall.setScale 1, ECall.setAspect none]
              else [ECall.setScale 0, ECall.setAspect (some "16:9")])) ∧
    (w.media ≠ none →
      (WallpaperWindow.play allOk w).trace
        = w.trace ++ [ECall.playCall]
            ++ (if w.speed = 1 then [] else [ECall.setRate w.speed])) := by
  constructor
  · by_cases hs : w.speed = 1 <;> by_cases ha : w.aspect_mode = "fit" <;>
      simp [WallpaperWindow.load, loadMediaCalls, guardCalls, engCall, allOk,
        allFiles, WallpaperWindow.applyAspectMode, hs, ha, List.append_assoc]
  · intro hm
    by_cases hs : w.speed = 1 <;>
      simp [WallpaperWindow.play, engCall, allOk, hs, hm, List.append_assoc]

theorem C3_witness :
    ((WallpaperWindow.load allFiles allOk loadedDefault "b.mp4").1.trace
      = loadedDefault.trace ++ loadMediaCalls "b.mp4" ++ [ECall.setMedia "b.mp4"]
          ++ (if loadedDefault.speed = 1 then []
              else [ECall.setRate loadedDefault.speed])
          ++ (if loadedDefault.aspect_mode = "fit"
              then [ECall.setScale 1, ECall.setAspect none]
              else [ECall.setScale 0, ECall.setAspect (some "16:9")])) ∧
    ((WallpaperWindow.play allOk loadedDefault).trace
      = loadedDefault.trace ++ [ECall.playCall]
          ++ (if loadedDefault.speed = 1 then []
              else [ECall.setRate loadedDefault.speed])) :=
  ⟨(C3_amended_rate_aspect_application loadedDefault "b.mp4").1,
   (C3_amended_rate_aspect_application loadedDefault "b.mp4").2 (by decide)⟩

/-- Claim C4 is false as stated: after a healthy load of `"a.mp4"`,
`stop()` clears `current_video_path` but does NOT release the bound media
(`self.media` keeps its value), and `play()` right after `stop()` is not a
no-op — it changes the state and instructs the engine to play. -/
theorem C4_counterexample :
    (WallpaperWindow.stop allOk loadedDefault).current_video_path = "" ∧
    (WallpaperWindow.stop allOk loadedDefault).media = some "a.mp4" ∧
    WallpaperWindow.play allOk (WallpaperWindow.stop allOk loadedDefault)
      ≠ WallpaperWindow.stop allOk loadedDefault ∧
    (WallpaperWindow.play allOk
        (WallpaperWindow.stop allOk loadedDefault)).player.playing = true := by
  decide

/-- Claim C4 amended: `stop()` (with the engine stop call succeeding)
clears `current_video_path` but retains the bound media, and `play()` is a
no-op exactly in the never-loaded state `self.media = none` — a state
`stop()` does not restore. -/
theorem C4_amended_stop_retains_media (ok : ECall → Bool) (w : WallpaperWindow) :
    ((WallpaperWindow.stop allOk w).current_video_path = "" ∧
     (WallpaperWindow.stop allOk w).media = w.media) ∧
    (w.media = none → WallpaperWindow.play ok w = w) := by
  constructor
  · constructor <;> simp [WallpaperWindow.stop, engCall, allOk]
  · intro hm
    simp [WallpaperWindow.play, hm]

theorem C4_witness :
    ((WallpaperWindow.stop allOk
        (WallpaperWindow.init DEFAULT_CONFIG)).current_video_path = "" ∧
     (WallpaperWindow.stop allOk (WallpaperWindow.init DEFAULT_CONFIG)).media
       = (WallpaperWindow.init DEFAULT_CONFIG).media) ∧
    WallpaperWindow.play allOk (WallpaperWindow.init DEFAULT_CONFIG)
      = WallpaperWindow.init DEFAULT_CONFIG :=
  ⟨(C4_amended_stop_retains_media allOk (WallpaperWindow.init DEFAULT_CONFIG)).1,
   (C4_amended_stop_retains_media allOk (WallpaperWindow.init DEFAULT_CONFIG)).2
     (by decide)⟩

/-- Claim C5 is false as stated: when the engine rejects the `set_rate`
call, `set_speed` still changes the stored rate — the field is written
before the engine call — so the operation is not a no-op (the empty trace
shows the engine never received the call). -/
theorem C5_counterexample :
    (WallpaperWindow.set_speed noOk
        (WallpaperWindow.init DEFAULT_CONFIG) 2).speed = 2 ∧
    (WallpaperWindow.init DEFAULT_CONFIG).speed = 1 ∧
    (WallpaperWindow.set_speed noOk
        (WallpaperWindow.init DEFAULT_CONFIG) 2).trace = [] := by
  decide

/-- Claim C5 amended: under a failing engine, `play`, `pause` and `stop`
are genuine no-ops (failure caught, no state change); `set_speed` and
`toggle_aspect` also catch the failure but still update the stored rate
resp. aspect mode; and `load`'s media construction/bind calls are
unguarded, so an engine failure there propagates out of `load` after
`current_video_path` has already been updated. -/
theorem C5_amended_engine_failure (fs : String → Bool) (w : WallpaperWindow)
    (path : String) (r : ℚ) (hfs : fs path = true) :
    WallpaperWindow.play noOk w = w ∧
    WallpaperWindow.pause noOk w = w ∧
    WallpaperWindow.stop noOk w = w ∧
    WallpaperWindow.set_speed noOk w r = { w with speed := r } ∧
    (WallpaperWindow.toggle_aspect noOk w).1
      = (if w.aspect_mode = "fit" then { w with aspect_mode := "keep_aspect" }
         else { w with aspect_mode := "fit" }) ∧
    WallpaperWindow.load fs noOk w path
      = ({ w with current_video_path := path }, some PyError.engineError) := by
  refine ⟨?_, ?_, ?_, ?_, ?_, ?_⟩
  · by_cases hm : w.media = none <;> simp [WallpaperWindow.play, engCall, noOk, hm]
  · simp [WallpaperWindow.pause, engCall, noOk]
  · simp [WallpaperWindow.stop, engCall, noOk]
  · simp [WallpaperWindow.set_speed, engCall, noOk]
  · by_cases ha : w.aspect_mode = "fit" <;>
      simp [WallpaperWindow.toggle_aspect, WallpaperWindow.applyAspectMode,
        engCall, noOk, ha]
  · simp [WallpaperWindow.load, hfs, loadMediaCalls, guardCalls, engCall, noOk]

theorem C5_witness :
    WallpaperWindow.play noOk (WallpaperWindow.init DEFAULT_CONFIG)
      = WallpaperWindow.init DEFAULT_CONFIG ∧
    WallpaperWindow.pause noOk (WallpaperWindow.init DEFAULT_CONFIG)
      = WallpaperWindow.init DEFAULT_CONFIG ∧
    WallpaperWindow.stop noOk (WallpaperWindow.init DEFAULT_CONFIG)
      = WallpaperWindow.init DEFAULT_CONFIG ∧
    WallpaperWindow.set_speed noOk (WallpaperWindow.init DEFAULT_CONFIG) 2
      = { WallpaperWindow.init DEFAULT_CONFIG with speed := 2 } ∧
    (WallpaperWindow.toggle_aspect noOk (WallpaperWindow.init DEFAULT_CONFIG)).1
      = (if (WallpaperWindow.init DEFAULT_CONFIG).aspect_mode = "fit"
         then { WallpaperWindow.init DEFAULT_CONFIG with aspect_mode := "keep_aspect" }
         else { WallpaperWindow.init DEFAULT_CONFIG with aspect_mode := "fit" }) ∧
    WallpaperWindow.load allFiles noOk (WallpaperWindow.init DEFAULT_CONFIG) "x.mp4"
      = ({ WallpaperWindow.init DEFAULT_CONFIG with current_video_path := "x.mp4" },
         some PyError.engineError) :=
  C5_amended_engine_failure allFiles (WallpaperWindow.init DEFAULT_CONFIG)
    "x.mp4" 2 rfl

/-- Claim C6 is false as stated: `set_speed` performs no validation at all —
it stores any rate it is given, here `3`, which is not in the supported set
`{0.5, 1.0, 1.5, 2.0}`. -/
theorem C6_counterexample :
    (WallpaperWindow.set_speed allOk
        (WallpaperWindow.init DEFAULT_CONFIG) 3).speed = 3 ∧
    (3 : ℚ) ∉ ([0.5, 1, 1.5, 2] : List ℚ) := by
  refine ⟨by decide, ?_⟩
  intro hmem
  simp only [List.mem_cons, List.not_mem_nil, or_false] at hmem
  rcases hmem with h | h | h | h <;> norm_num at h

/-- Claim C6 amended: `set_speed` itself accepts any value without
validation; the discrete set is enforced only by the control panel's speed
selector, whose `on_speed_change` maps every combo-box index into
`{0.5, 1.0, 1.5, 2.0}` (unknown indices map to `1.0`), so both the stored
and the persisted rate after any panel speed change lie in that set. -/
theorem C6_amended_panel_rates (ok : ECall → Bool) (saveOk : Bool) (index : ℤ)
    (cfg : Config) (disk : Option Config) (w : WallpaperWindow) (p : ControlPanel) :
    (on_speed_change ok saveOk index cfg disk w p).1.speed
      ∈ ([0.5, 1, 1.5, 2] : List ℚ) ∧
    (on_speed_change ok saveOk index cfg disk w p).2.2.1.speed
      ∈ ([0.5, 1, 1.5, 2] : List ℚ) ∧
    (on_speed_change ok saveOk index cfg disk w p).1.speed = speedOfIndex index ∧
    (on_speed_change ok saveOk index cfg disk w p).2.2.1.speed
      = speedOfIndex index := by
  have hsp : speedOfIndex index ∈ ([0.5, 1, 1.5, 2] : List ℚ) := by
    unfold speedOfIndex
    split_ifs <;> simp
  have hset : ∀ s : ℚ, (WallpaperWindow.set_speed ok w s).speed = s := by
    intro s
    unfold WallpaperWindow.set_speed
    rw [(engCall_fields ok _ _).2.2.2]
  refine ⟨?_, ?_, ?_, ?_⟩ <;> simp [on_speed_change, hset, hsp]

/-- With a healthy engine, `_apply_aspect_mode` leaves the engine's scale
and forced aspect ratio as a function of the stored mode alone. -/
theorem applyAspectMode_allOk_settings (w : WallpaperWindow) :
    (WallpaperWindow.applyAspectMode allOk w).player.scale
      = (if w.aspect_mode = "fit" then 1 else 0) ∧
    (WallpaperWindow.applyAspectMode allOk w).player.aspect
      = (if w.aspect_mode = "fit" then none else some "16:9") := by
  by_cases ha : w.aspect_mode = "fit" <;>
    simp [WallpaperWindow.applyAspectMode, engCall, allOk, PlayerState.applyCall, ha]

/-- `toggle_aspect` flips the stored mode to exactly the opposite string. -/
theorem toggle_aspect_mode_eq (ok : ECall → Bool) (v : WallpaperWindow) :
    (WallpaperWindow.toggle_aspect ok v).1.aspect_mode
      = (if v.aspect_mode = "fit" then "keep_aspect" else "fit") := by
  unfold WallpaperWindow.toggle_aspect
  dsimp only
  rw [(applyAspectMode_fields ok _).2.2.1]
  split <;> simp

/-- Claim C7: from either valid mode, toggling twice restores the original
mode, each call returns the mode now in effect (which differs from the mode
before the call), and with a healthy engine the double toggle leaves the
engine scale/aspect settings equal to those of applying the original mode. -/
theorem C7_toggle_involutive (ok : ECall → Bool) (w : WallpaperWindow)
    (h : w.aspect_mode = "fit" ∨ w.aspect_mode = "keep_aspect") :
    (WallpaperWindow.toggle_aspect ok
        (WallpaperWindow.toggle_aspect ok w).1).1.aspect_mode = w.aspect_mode ∧
    (WallpaperWindow.toggle_aspect ok w).2
      = (WallpaperWindow.toggle_aspect ok w).1.aspect_mode ∧
    (WallpaperWindow.toggle_aspect ok w).2 ≠ w.aspect_mode ∧
    (WallpaperWindow.toggle_aspect allOk
        (WallpaperWindow.toggle_aspect allOk w).1).1.player.scale
      = (WallpaperWindow.applyAspectMode allOk w).player.scale ∧
    (WallpaperWindow.toggle_aspect allOk
        (WallpaperWindow.toggle_aspect allOk w).1).1.player.aspect
      = (WallpaperWindow.applyAspectMode allOk w).player.aspect := by
  have hmode2 : ∀ okk : ECall → Bool,
      (WallpaperWindow.toggle_aspect okk
        (WallpaperWindow.toggle_aspect okk w).1).1.aspect_mode = w.aspect_mode := by
    intro okk
    rw [toggle_aspect_mode_eq okk _, toggle_aspect_mode_eq okk w]
    rcases h with ha | ha <;> simp [ha]
  have hsettings : ∀ v : WallpaperWindow,
      (WallpaperWindow.toggle_aspect allOk v).1.player.scale
        = (if (WallpaperWindow.toggle_aspect allOk v).1.aspect_mode = "fit"
           then 1 else 0) ∧
      (WallpaperWindow.toggle_aspect allOk v).1.player.aspect
        = (if (WallpaperWindow.toggle_aspect allOk v).1.aspect_mode = "fit"
           then none else some "16:9") := by
    intro v
    unfold WallpaperWindow.toggle_aspect
    dsimp only
    rw [(applyAspectMode_fields allOk _).2.2.1]
    exact ⟨(applyAspectMode_allOk_settings _).1, (applyAspectMode_allOk_settings _).2⟩
  refine ⟨hmode2 ok, rfl, ?_, ?_, ?_⟩
  · show (WallpaperWindow.toggle_aspect ok w).1.aspect_mode ≠ w.aspect_mode
    rw [toggle_aspect_mode_eq ok w]
    rcases h with ha | ha <;> simp [ha]
  · rw [(hsettings _).1, hmode2 allOk, (applyAspectMode_allOk_settings w).1]
  · rw [(hsettings _).2, hmode2 allOk, (applyAspectMode_allOk_settings w).2]

theorem C7_witness :
    (WallpaperWindow.toggle_aspect allOk
        (WallpaperWindow.toggle_aspect allOk
          (WallpaperWindow.init DEFAULT_CONFIG)).1).1.aspect_mode
      = (WallpaperWindow.init DEFAULT_CONFIG).aspect_mode ∧
    (WallpaperWindow.toggle_aspect allOk (WallpaperWindow.init DEFAULT_CONFIG)).2
      = (WallpaperWindow.toggle_aspect allOk
          (WallpaperWindow.init DEFAULT_CONFIG)).1.aspect_mode ∧
    (WallpaperWindow.toggle_aspect allOk (WallpaperWindow.init DEFAULT_CONFIG)).2
      ≠ (WallpaperWindow.init DEFAULT_CONFIG).aspect_mode ∧
    (WallpaperWindow.toggle_aspect allOk
        (WallpaperWindow.toggle_aspect allOk
          (WallpaperWindow.init DEFAULT_CONFIG)).1).1.player.scale
      = (WallpaperWindow.applyAspectMode allOk
          (WallpaperWindow.init DEFAULT_CONFIG)).player.scale ∧
    (WallpaperWindow.toggle_aspect allOk
        (WallpaperWindow.toggle_aspect allOk
          (WallpaperWindow.init DEFAULT_CONFIG)).1).1.player.aspect
      = (WallpaperWindow.applyAspectMode allOk
          (WallpaperWindow.init DEFAULT_CONFIG)).player.aspect :=
  C7_toggle_involutive allOk (WallpaperWindow.init DEFAULT_CONFIG) (Or.inl rfl)

/-- Claim C8: settings load is total and forward-compatible — a missing or
unreadable/unparsable file yields the hard-coded default record; a parsed
file is merged over the defaults, so every key present in the file is taken
from the file and every missing key (for instance `default_video`, which
defaults to `""`) is filled from the defaults. -/
theorem C8_load_config_total_merge (c : PartialConfig) :
    load_config FileRead.missing = DEFAULT_CONFIG ∧
    load_config FileRead.unreadable = DEFAULT_CONFIG ∧
    (load_config (FileRead.parsed c)).last_video = c.last_video.getD "" ∧
    (load_config (FileRead.parsed c)).default_video = c.default_video.getD "" ∧
    (load_config (FileRead.parsed c)).speed = c.speed.getD 1 ∧
    (load_config (FileRead.parsed c)).aspect_mode = c.aspect_mode.getD "fit" :=
  ⟨rfl, rfl, rfl, rfl, rfl, rfl⟩

/-- Helper: with a healthy engine, loading an existing path succeeds and
binds exactly that path. -/
theorem load_allOk_success (fs : String → Bool) (w : WallpaperWindow)
    (path : String) (h : fs path = true) :
    (WallpaperWindow.load fs allOk w path).2 = none ∧
    (WallpaperWindow.load fs allOk w path).1.current_video_path = path ∧
    (WallpaperWindow.load fs allOk w path).1.media = some path := by
  by_cases hs : w.speed = 1 <;> by_cases ha : w.aspect_mode = "fit" <;>
    simp [WallpaperWindow.load, h, loadMediaCalls, guardCalls, engCall, allOk,
      WallpaperWindow.applyAspectMode, hs, ha]

/-- Helper: with a healthy engine and media bound, `play` reports the engine
playing and touches neither the current path nor the bound media. -/
theorem play_allOk_playing (w : WallpaperWindow) (hm : w.media ≠ none) :
    (WallpaperWindow.play allOk w).player.playing = true ∧
    (WallpaperWindow.play allOk w).current_video_path = w.current_video_path := by
  by_cases hs : w.speed = 1 <;>
    simp [WallpaperWindow.play, engCall, allOk, hm, hs, PlayerState.applyCall]

/-- The config used to exercise the startup default-video branch. -/
def cfg9 : Config :=
  { last_video := "", default_video := "d.mp4", speed := 1, aspect_mode := "fit" }

/-- The config used to exercise the startup last-video fallback branch. -/
def cfg9b : Config :=
  { last_video := "l.mp4", default_video := "", speed := 1, aspect_mode := "fit" }

/-- Claim C9 is false in one detail: a startup load failure (here every
engine call fails) is caught, but it is NOT reported as a status message —
the panel, status label included, is left exactly as built (`"Idle"`); the
error is only printed to the console. -/
theorem C9_counterexample :
    (WallpaperWindow.load allFiles noOk (WallpaperWindow.init cfg9) "d.mp4").2
      = some PyError.engineError ∧
    (startupAutoLoad allFiles noOk cfg9 (WallpaperWindow.init cfg9) initPanel).2
      = initPanel ∧
    (startupAutoLoad allFiles noOk cfg9
        (WallpaperWindow.init cfg9) initPanel).2.status = "Idle" := by
  decide

/-- Claim C9 amended: startup follows the priority policy — an existing
non-empty `default_video` is loaded and immediately played; otherwise an
existing non-empty `last_video` is loaded and immediately played; otherwise
nothing is loaded and both window and panel are untouched; and a failing
startup load is caught, leaving the panel (status label included)
unchanged — the failure is only logged to the console, never fatal. -/
theorem C9_amended_startup_policy (fs : String → Bool) (cfg : Config)
    (w : WallpaperWindow) (p : ControlPanel) :
    (cfg.default_video ≠ "" → fs cfg.default_video = true →
      (startupAutoLoad fs allOk cfg w p).1.current_video_path = cfg.default_video ∧
      (startupAutoLoad fs allOk cfg w p).1.player.playing = true ∧
      (startupAutoLoad fs allOk cfg w p).2.status
        = "Loaded default: " ++ baseName cfg.default_video) ∧
    ((cfg.default_video = "" ∨ fs cfg.default_video = false) →
     cfg.last_video ≠ "" → fs cfg.last_video = true →
      (startupAutoLoad fs allOk cfg w p).1.current_video_path = cfg.last_video ∧
      (startupAutoLoad fs allOk cfg w p).1.player.playing = true ∧
      (startupAutoLoad fs allOk cfg w p).2.status
        = "Loaded: " ++ baseName cfg.last_video) ∧
    ((cfg.default_video = "" ∨ fs cfg.default_video = false) →
     (cfg.last_video = "" ∨ fs cfg.last_video = false) →
      startupAutoLoad fs allOk cfg w p = (w, p)) ∧
    (∀ ok : ECall → Bool, cfg.default_video ≠ "" → fs cfg.default_video = true →
      (WallpaperWindow.load fs ok w cfg.default_video).2 ≠ none →
      (startupAutoLoad fs ok cfg w p).2 = p) := by
  refine ⟨?_, ?_, ?_, ?_⟩
  · intro hd hfs
    have hl := load_allOk_success fs w cfg.default_video hfs
    unfold startupAutoLoad
    rw [if_pos ⟨hd, hfs⟩]
    rcases hr : WallpaperWindow.load fs allOk w cfg.default_video with ⟨w2, e⟩
    rw [hr] at hl
    simp only at hl
    rcases hl with ⟨he, hpath, hmedia⟩
    subst he
    dsimp only
    have hplay := play_allOk_playing w2 (by rw [hmedia]; simp)
    exact ⟨by rw [hplay.2, hpath], hplay.1, rfl⟩
  · intro hd hl hfs
    have hcond : ¬(cfg.default_video ≠ "" ∧ fs cfg.default_video = true) := by
      rcases hd with h | h <;> simp [h]
    have hload := load_allOk_success fs w cfg.last_video hfs
    unfold startupAutoLoad
    rw [if_neg hcond, if_pos ⟨hl, hfs⟩]
    rcases hr : WallpaperWindow.load fs allOk w cfg.last_video with ⟨w2, e⟩
    rw [hr] at hload
    simp only at hload
    rcases hload with ⟨he, hpath, hmedia⟩
    subst he
    dsimp only
    have hplay := play_allOk_playing w2 (by rw [hmedia]; simp)
    exact ⟨by rw [hplay.2, hpath], hplay.1, rfl⟩
  · intro hd hl
    have hcond : ¬(cfg.default_video ≠ "" ∧ fs cfg.default_video = true) := by
      rcases hd with h | h <;> simp [h]
    have hcond2 : ¬(cfg.last_video ≠ "" ∧ fs cfg.last_video = true) := by
      rcases hl with h | h <;> simp [h]
    unfold startupAutoLoad
    rw [if_neg hcond, if_neg hcond2]
  · intro ok hd hfs hfail
    unfold startupAutoLoad
    rw [if_pos ⟨hd, hfs⟩]
    rcases hr : WallpaperWindow.load fs ok w cfg.default_video with ⟨w2, e⟩
    rw [hr] at hfail
    simp only at hfail
    cases e with
    | none => exact absurd rfl hfail
    | some err => rfl

theorem C9_witness :
    ((startupAutoLoad allFiles allOk cfg9
        (WallpaperWindow.init cfg9) initPanel).1.current_video_path = "d.mp4" ∧
     (startupAutoLoad allFiles allOk cfg9
        (WallpaperWindow.init cfg9) initPanel).1.player.playing = true ∧
     (startupAutoLoad allFiles allOk cfg9
        (WallpaperWindow.init cfg9) initPanel).2.status
       = "Loaded default: " ++ baseName "d.mp4") ∧
    ((startupAutoLoad allFiles allOk cfg9b
        (WallpaperWindow.init cfg9b) initPanel).1.current_video_path = "l.mp4" ∧
     (startupAutoLoad allFiles allOk cfg9b
        (WallpaperWindow.init cfg9b) initPanel).1.player.playing = true ∧
     (startupAutoLoad allFiles allOk cfg9b
        (WallpaperWindow.init cfg9b) initPanel).2.status
       = "Loaded: " ++ baseName "l.mp4") ∧
    startupAutoLoad allFiles allOk DEFAULT_CONFIG
        (WallpaperWindow.init DEFAULT_CONFIG) initPanel
      = (WallpaperWindow.init DEFAULT_CONFIG, initPanel) ∧
    (startupAutoLoad allFiles noOk cfg9
        (WallpaperWindow.init cfg9) initPanel).2 = initPanel :=
  ⟨(C9_amended_startup_policy allFiles cfg9
      (WallpaperWindow.init cfg9) initPanel).1 (by decide) rfl,
   (C9_amended_startup_policy allFiles cfg9b
      (WallpaperWindow.init cfg9b) initPanel).2.1 (Or.inl rfl) (by decide) rfl,
   (C9_amended_startup_policy allFiles DEFAULT_CONFIG
      (WallpaperWindow.init DEFAULT_CONFIG) initPanel).2.2.1
     (Or.inl rfl) (Or.inl rfl),
   (C9_amended_startup_policy allFiles cfg9
      (WallpaperWindow.init cfg9) initPanel).2.2.2 noOk (by decide) rfl
     (by decide)⟩

/-- The config in place before the failing user load action. -/
def cfg10 : Config :=
  { last_video := "old.mp4", default_video := "", speed := 1, aspect_mode := "fit" }

/-- Claim C10 is false as stated: `on_load` persists the chosen path into
`last_video` BEFORE attempting the load; here the load fails with
`FileNotFoundError`, yet both the in-memory config and the persisted record
now carry the failing path instead of the previous `"old.mp4"`. -/
theorem C10_counterexample :
    (WallpaperWindow.load noFiles allOk (WallpaperWindow.init cfg10) "bad.mp4").2
      = some (PyError.fileNotFound "bad.mp4") ∧
    (on_load noFiles allOk true "bad.mp4" cfg10 (some cfg10)
        (WallpaperWindow.init cfg10) initPanel).1.last_video = "bad.mp4" ∧
    (on_load noFiles allOk true "bad.mp4" cfg10 (some cfg10)
        (WallpaperWindow.init cfg10) initPanel).2.1
      = some { cfg10 with last_video := "bad.mp4" } := by
  decide

/-- Claim C10 amended: for every user load action with a non-empty chosen
path, the path is written to `last_video` and persisted to the Settings
Store BEFORE the load is attempted — regardless of whether the load then
succeeds or fails — so a failing load leaves `last_video` equal to the
failing path, not to the previously loaded one. -/
theorem C10_amended_persist_before_load (fs : String → Bool) (ok : ECall → Bool)
    (path : String) (cfg : Config) (disk : Option Config)
    (w : WallpaperWindow) (p : ControlPanel) (h : path ≠ "") :
    (on_load fs ok true path cfg disk w p).1.last_video = path ∧
    (on_load fs ok true path cfg disk w p).2.1
      = some { cfg with last_video := path } := by
  unfold on_load
  rw [if_neg h]
  dsimp only
  rcases hr : WallpaperWindow.load fs ok w path with ⟨w2, e⟩
  cases e <;> simp [save_config]

theorem C10_witness :
    (on_load noFiles allOk true "bad2.mp4" DEFAULT_CONFIG none
        (WallpaperWindow.init DEFAULT_CONFIG) initPanel).1.last_video
      = "bad2.mp4" ∧
    (on_load noFiles allOk true "bad2.mp4" DEFAULT_CONFIG none
        (WallpaperWindow.init DEFAULT_CONFIG) initPanel).2.1
      = some { DEFAULT_CONFIG with last_video := "bad2.mp4" } :=
  C10_amended_persist_before_load noFiles allOk "bad2.mp4" DEFAULT_CONFIG none
    (WallpaperWindow.init DEFAULT_CONFIG) initPanel (by decide)
